import Mathlib

/-!
Verification development for the multiplayer turn/session coordinator of the
evertale repository (src/backend/server.js). The definitions below are a
shallow embedding of the POST /api/game/action handler (lines 3506-3963), the
central LLM dispatcher callLLM (lines 2765-2964) and the image generation
helpers (lines 2967-3109, 3966-3987). External collaborators (the narrative
generator and the image service) are modelled as oracles supplied to the
embedded functions.
-/

namespace Evertale

/-- Row of the session_players table fields used by the action handler
(user_id, player_index). -/
structure Player where
  userId : String
  playerIndex : Nat
  deriving Repr, DecidableEq

/-- Non-player character object as validated by callLLM (name, description,
appearance, opinionOfPlayer all strings). -/
structure NPC where
  name : String
  description : String
  appearance : String
  opinionOfPlayer : String
  deriving Repr, DecidableEq

/-- Row of the turns table (columns relevant to the action handler). -/
structure Turn where
  turnIndex : Int
  scenarioText : String
  imageUrl : String
  imagePrompt : String
  suggestedActions : List String
  actionTaken : Option String
  timeOfDay : String
  isSameLocation : Bool
  characters : List NPC
  actingPlayerUserId : Option String
  actingPlayerIndex : Option Nat
  deriving Repr, DecidableEq

/-- The per-session persistent state read and written by the action handler:
the sessions row (is_multiplayer, current_player_index, game_goal,
goal_prerequisites, met_prerequisites, is_goal_met), the session_players
rows, the turns ledger, and the in-memory sessionSockets entry for the
session (the user ids holding a live websocket). -/
structure GameState where
  isMultiplayer : Bool
  currentPlayerIndex : Option Nat
  gameGoal : String
  goalPrerequisites : List String
  metPrerequisites : List String
  isGoalMet : Bool
  players : List Player
  turns : List Turn
  connectedUserIds : List String
  deriving Repr, DecidableEq

/-- Parsed LLM response for a subsequent turn, after the structural
validation done inside callLLM (narrative, image_prompt, suggested_actions,
timeOfDay, isSameLocation, characters, updated_met_prerequisites,
is_goal_met_this_turn). -/
structure TurnData where
  narrative : String
  imagePrompt : String
  suggestedActions : List String
  timeOfDay : String
  isSameLocation : Bool
  characters : List NPC
  updatedMetPrerequisites : List String
  isGoalMetThisTurn : Bool
  deriving Repr, DecidableEq

/-- Distinct failure responses of the action handler. -/
inductive ActionError where
  /-- thrown when the players query returns no rows (line 3543) -/
  | noPlayers
  /-- 403, requesting user not in session_players (line 3555) -/
  | notAPlayer
  /-- 403, multiplayer and current_player_index differs (line 3573) -/
  | notYourTurn
  /-- thrown for sourceTurnIndex out of range 0..latest (line 3610) -/
  | invalidTurnIndex
  /-- thrown when no history rows exist up to sourceTurnIndex (line 3624) -/
  | noHistory
  /-- callLLM exhausted its attempts (line 2959) -/
  | llmFailed
  /-- image generation threw and was not caught, propagating to the
  transaction catch (generateImageWithOpenAI has no catch) -/
  | imageFailed (msg : String)
  /-- unknown ACTIVE_IMAGE_PROVIDER (line 3985) -/
  | invalidImageProvider
  /-- INSERT INTO turns violated UNIQUE(session_id, turn_index); the
  transaction is rolled back (lines 2316, 3808, 3858) -/
  | turnIndexConflict
  /-- 409, skip scan found no connected player (line 3928) -/
  | noActivePlayers
  deriving Repr, DecidableEq

/-- Outcome of one call of the action handler. -/
inductive ActionResult where
  /-- 200 with the new turn appended -/
  | newTurn (d : TurnData) (imageUrl : String) (newTurnIndex : Int)
  /-- 200 with message that the previous player disconnected (line 3917) -/
  | turnSkipped (newIndex : Nat)
  /-- one of the failure responses -/
  | err (e : ActionError)
  deriving Repr, DecidableEq

/-- Predicate for a failure outcome. -/
def ActionResult.isErr : ActionResult → Bool
  | .err _ => true
  | _ => false

/-- Outcome of one request to an image backend. -/
inductive ImageOutcome where
  | success (base64 : String)
  | failure (msg : String)
  deriving Repr, DecidableEq

/-- External collaborator behaviour for one handler run: the narrative
generator outcome per attempt number (none means that attempt failed by a
network error, timeout, empty content, JSON parse failure, or schema
validation failure - the catch at line 2938 treats all identically) and the
image service outcome. -/
structure Oracles where
  llmOutcomes : Nat → Option TurnData
  imageOutcome : ImageOutcome

/-- Retry loop of callLLM (lines 2799-2955), recursing on the number of
remaining loop iterations. Returns the final outcome, the list of backoff
delays performed in milliseconds (line 2950: 500 * attempt, only when
attempt < maxRetries), and the number of attempts made. -/
def llmAttempts (outcomes : Nat → Option TurnData) (maxRetries : Nat) :
    Nat → Nat → Except String TurnData × List Nat × Nat
  | _, 0 => (.error "no attempts", [], 0)
  | attempt, remaining + 1 =>
    match outcomes attempt with
    | some d => (.ok d, [], 1)
    | none =>
      if attempt < maxRetries then
        let rest := llmAttempts outcomes maxRetries (attempt + 1) remaining
        (rest.1, (500 * attempt) :: rest.2.1, rest.2.2 + 1)
      else
        (.error "LLM failed after retries", [], 1)

/-- Central LLM dispatcher callLLM with its default of 3 attempts; the
action handler calls it as callLLM(prompt, 3, false) (line 3734). -/
def callLLM (outcomes : Nat → Option TurnData) (maxRetries : Nat := 3) :
    Except String TurnData × List Nat × Nat :=
  llmAttempts outcomes maxRetries 1 maxRetries

/-- Placeholder returned by generateImageWithImagen when the prompt is
empty (line 2977), with the default IMAGEN_ASPECT_RATIO 16:9. -/
def imagenMissingPromptUrl : String :=
  "https://via.placeholder.com/1024x576.png?text=Missing+Prompt&ratio=16x9"

/-- Placeholder returned by the catch of generateImageWithImagen
(line 3024), with the default IMAGEN_ASPECT_RATIO 16:9. -/
def imagenFailedUrl : String :=
  "https://via.placeholder.com/1024x576.png?text=Image+Generation+Failed&ratio=16x9"

/-- Placeholder returned by the catch of generateImageWithGoogleFlash
(line 3084). -/
def flashFailedUrl : String :=
  "https://via.placeholder.com/1024x576.png?text=Image+Generation+Failed"

/-- Imagen image generation (lines 2967-3029): empty prompt short-circuits
to a placeholder, any API failure is caught and degrades to a placeholder,
so the function always returns a url. -/
def generateImageWithImagen (prompt : String) (outcome : ImageOutcome) : String :=
  if prompt.data.all (fun c => c.isWhitespace) then imagenMissingPromptUrl
  else
    match outcome with
    | .success b => "data:image/png;base64," ++ b
    | .failure _ => imagenFailedUrl

/-- Google Flash image generation (lines 3031-3086): an empty prompt only
logs a warning and the call proceeds; any failure is caught and degrades to
a placeholder. The optional previous image changes only the request
contents, not the failure handling. -/
def generateImageWithGoogleFlash (prompt : String) (base64Image : Option String)
    (outcome : ImageOutcome) : String :=
  match outcome with
  | .success b => "data:image/png;base64," ++ b
  | .failure _ => flashFailedUrl

/-- OpenAI image generation (lines 3088-3109): there is no try/catch, so a
failed call propagates as an exception to the caller. -/
def generateImageWithOpenAI (prompt : String) (outcome : ImageOutcome) :
    Except String String :=
  match outcome with
  | .success b => .ok ("data:image/png;base64," ++ b)
  | .failure m => .error m

/-- Provider dispatch generateImageWithAppropriateProvider
(lines 3966-3987). Only the openai branch can propagate a failure; an
unknown provider throws. -/
def generateImageWithAppropriateProvider (provider : String) (d : TurnData)
    (base64PreviousImage : Option String) (outcome : ImageOutcome) :
    Except ActionError String :=
  match provider with
  | "google" => .ok (generateImageWithImagen d.imagePrompt outcome)
  | "google-flash" =>
    if d.isSameLocation ∧ base64PreviousImage.isSome then
      .ok (generateImageWithGoogleFlash d.imagePrompt base64PreviousImage outcome)
    else
      .ok (generateImageWithGoogleFlash d.imagePrompt none outcome)
  | "openai" =>
    match generateImageWithOpenAI d.imagePrompt outcome with
    | .ok url => .ok url
    | .error m => .error (.imageFailed m)
  | _ => .error .invalidImageProvider

/-- Base64 extraction from the previous turn image url (lines 3654-3666):
the url must start with the png data-url header, and the JS
split on a comma then takes the segment between the first and second
comma. Both operations are modelled on the character list of the url. -/
def extractBase64 (imageUrl : Option String) : Option String :=
  match imageUrl with
  | some u =>
    if "data:image/png;base64,".data.isPrefixOf u.data then
      some (String.mk (((u.data.dropWhile (fun c => c ≠ ',')).drop 1).takeWhile
        (fun c => c ≠ ',')))
    else none
  | none => none

/-- MAX(turn_index) over the turns of the session, with the handler default
of -1 when there are no rows (line 3608). -/
def latestTurnIndex (turns : List Turn) : Int :=
  turns.foldl (fun m t => max m t.turnIndex) (-1)

/-- Connectivity resolution for the currently assigned player
(lines 3577-3593): multiplayer looks the current player up in the
sessionSockets entry; a single-player session is always considered
connected. -/
def currentPlayerConnected (s : GameState) : Bool :=
  if s.isMultiplayer then
    match s.players.find? (fun p => s.currentPlayerIndex = some p.playerIndex) with
    | some p => s.connectedUserIds.contains p.userId
    | none => false
  else true

/-- Skip scan of the roster (lines 3873-3893): starting from the index
after the current one, check every roster slot once, wrapping modulo the
roster size, and return the first index whose player is connected. -/
def findNextConnectedIndex (players : List Player) (connected : List String)
    (cpi : Nat) : Option Nat :=
  (List.range players.length).findSome? (fun j =>
    match players.find? (fun p => p.playerIndex = (cpi + j + 1) % players.length) with
    | some p =>
      if connected.contains p.userId then some ((cpi + j + 1) % players.length)
      else none
    | none => none)

/-- Skip-turn branch (lines 3866-3937): if a connected player exists, only
current_player_index and the update timestamp are written and no turn row
is inserted; otherwise the transaction is rolled back with a 409. In the
source currentPlayerIndex is a JS number on this path; if it were null,
null + 1 evaluates to 1, which coincides with treating the index as 0. -/
def skipTurn (s : GameState) : GameState × ActionResult :=
  match findNextConnectedIndex s.players s.connectedUserIds
      (s.currentPlayerIndex.getD 0) with
  | some idx => ({ s with currentPlayerIndex := some idx }, .turnSkipped idx)
  | none => (s, .err .noActivePlayers)

/-- The submit request body: sessionId is implicit in the GameState, the
remaining fields are the acting user, the free-text action and the parsed
turnIndex. -/
structure ActionRequest where
  userId : String
  action : String
  turnIndex : Int
  deriving Repr, DecidableEq

/-- The turn row inserted at lines 3753-3808. -/
def mkNewTurn (req : ActionRequest) (rp : Player) (d : TurnData)
    (imageUrl : String) : Turn :=
  { turnIndex := req.turnIndex + 1
    scenarioText := d.narrative
    imageUrl := imageUrl
    imagePrompt := d.imagePrompt
    suggestedActions := d.suggestedActions
    actionTaken := some req.action
    timeOfDay := d.timeOfDay
    isSameLocation := d.isSameLocation
    characters := d.characters
    actingPlayerUserId := some req.userId
    actingPlayerIndex := some rp.playerIndex }

/-- Round-robin advance of current_player_index (lines 3810-3816): for
multiplayer sessions (current + 1) mod players.length, otherwise the index
is left as it was. On the multiplayer path the index is always a number at
this point, since the turn-ownership check already passed. -/
def advanceCurrentPlayer (s : GameState) : Option Nat :=
  if s.isMultiplayer then s.currentPlayerIndex.map (fun i => (i + 1) % s.players.length)
  else s.currentPlayerIndex

/-- Action-processing branch of the handler (lines 3596-3865), run inside
one BEGIN/COMMIT transaction: validate sourceTurnIndex against
MAX(turn_index), require history rows, call the LLM with 3 attempts,
generate the image, run the branching check (whose body is an empty comment
in the source, line 3749-3751, so no future turns are deleted), insert the
new turn (subject to UNIQUE(session_id, turn_index)), and update the
sessions row: current_player_index is advanced round-robin,
met_prerequisites is overwritten with the list the generator reported, and
is_goal_met becomes true when the generator signalled it or it already was
true. Any failure rolls the whole transaction back, leaving the state
untouched. -/
def processAction (imageProvider : String) (s : GameState) (req : ActionRequest)
    (rp : Player) (o : Oracles) : GameState × ActionResult :=
  if req.turnIndex < 0 ∨ req.turnIndex > latestTurnIndex s.turns then
    (s, .err .invalidTurnIndex)
  else if (s.turns.filter (fun t => t.turnIndex ≤ req.turnIndex)).isEmpty then
    (s, .err .noHistory)
  else
    match (callLLM o.llmOutcomes 3).1 with
    | .error _ => (s, .err .llmFailed)
    | .ok d =>
      match generateImageWithAppropriateProvider imageProvider d
          (extractBase64 ((s.turns.find? (fun t => t.turnIndex = req.turnIndex)).map
            (fun t => t.imageUrl))) o.imageOutcome with
      | .error e => (s, .err e)
      | .ok newImageUrl =>
        if s.turns.any (fun t => t.turnIndex = req.turnIndex + 1) then
          (s, .err .turnIndexConflict)
        else
          ({ s with
              turns := s.turns ++ [mkNewTurn req rp d newImageUrl]
              currentPlayerIndex := advanceCurrentPlayer s
              metPrerequisites := d.updatedMetPrerequisites
              isGoalMet := d.isGoalMetThisTurn || s.isGoalMet },
            .newTurn d newImageUrl (req.turnIndex + 1))

/-- The POST /api/game/action handler (lines 3506-3963) as a function from
the per-session persistent state, the request and the collaborator oracles
to the resulting state and response: resolve the roster, reject a requester
who is not a player, enforce the turn-ownership rule for multiplayer
sessions, then either process the action (current player connected) or run
the skip-turn branch. -/
def submitAction (imageProvider : String) (s : GameState) (req : ActionRequest)
    (o : Oracles) : GameState × ActionResult :=
  if s.players.isEmpty then (s, .err .noPlayers)
  else
    match s.players.find? (fun p => p.userId = req.userId) with
    | none => (s, .err .notAPlayer)
    | some rp =>
      if s.isMultiplayer ∧ ¬ s.currentPlayerIndex = some rp.playerIndex then
        (s, .err .notYourTurn)
      else if currentPlayerConnected s then
        processAction imageProvider s req rp o
      else
        skipTurn s

/-! Interleaving model for two concurrent POST /api/game/action requests on
the same session. The handler is an async function: every await is a point
where the node event loop may run another request for the same session, and
the source contains no per-session lock or queue. Each await-separated
database or collaborator operation of the connected-player path is one
atomic micro-op; both requests share the single sqlite connection, so a
BEGIN issued while a transaction is already open fails (the request then
aborts with an error response). -/

/-- Await-separated micro-ops of the connected-player path, in program
order: the sessions read (line 3528), the players read (line 3539), BEGIN
(line 3601), the MAX(turn_index) read (line 3604), the LLM call
(line 3734), the turn insert (line 3808), the sessions update (line 3821)
and COMMIT (line 3842). -/
inductive COp where
  | readSession
  | readPlayers
  | beginTx
  | readMaxTurn
  | llmCall
  | insertTurn
  | updateSession
  | commitTx
  deriving Repr, DecidableEq

/-- Program of one handler run on the connected-player path. -/
def handlerOps : List COp :=
  [.readSession, .readPlayers, .beginTx, .readMaxTurn, .llmCall,
   .insertTurn, .updateSession, .commitTx]

/-- Shared database state visible to both requests: the sessions row
current_player_index, MAX(turn_index) of the ledger, and whether the shared
connection has an open transaction. -/
structure CDb where
  cpi : Option Nat
  maxTurn : Int
  inTx : Bool
  deriving Repr, DecidableEq

/-- One in-flight request: its remaining micro-ops, the
current_player_index value it read from the sessions row, the
MAX(turn_index) value it read, and whether it has aborted. -/
structure CReq where
  ops : List COp
  readCpi : Option (Option Nat)
  readMax : Option Int
  failed : Bool
  deriving Repr, DecidableEq

/-- Semantics of one micro-op of one request against the shared database,
for a session with n roster players: reads record the value seen, BEGIN
fails if a transaction is already open on the shared connection (the
request then aborts; its outer catch issues a rollback and responds 500),
the insert extends the ledger and the update advances
current_player_index round-robin as in advanceCurrentPlayer. -/
def cstep (n : Nat) (db : CDb) (r : CReq) : CDb × CReq :=
  if r.failed then (db, r)
  else
    match r.ops with
    | [] => (db, r)
    | op :: rest =>
      match op with
      | .readSession => (db, { r with ops := rest, readCpi := some db.cpi })
      | .readPlayers => (db, { r with ops := rest })
      | .beginTx =>
        if db.inTx then (db, { r with ops := rest, failed := true })
        else ({ db with inTx := true }, { r with ops := rest })
      | .readMaxTurn => (db, { r with ops := rest, readMax := some db.maxTurn })
      | .llmCall => (db, { r with ops := rest })
      | .insertTurn => ({ db with maxTurn := db.maxTurn + 1 }, { r with ops := rest })
      | .updateSession =>
        ({ db with cpi := db.cpi.map (fun i => (i + 1) % n) }, { r with ops := rest })
      | .commitTx => ({ db with inTx := false }, { r with ops := rest })

/-- Run two requests under a schedule: true gives the next micro-op to
request one, false to request two. Any boolean list is a schedulable
interleaving, because the source takes no per-session lock. -/
def crun (n : Nat) : List Bool → CDb → CReq → CReq → CDb × CReq × CReq
  | [], db, r1, r2 => (db, r1, r2)
  | pick :: sched, db, r1, r2 =>
    if pick then
      let st := cstep n db r1
      crun n sched st.1 st.2 r2
    else
      let st := cstep n db r2
      crun n sched st.1 r1 st.2

/-- A fresh request about to enter the handler. -/
def freshReq : CReq := { ops := handlerOps, readCpi := none, readMax := none, failed := false }

/-- Concrete initial database: a 4-player multiplayer session at turn 3
with player 0 assigned. -/
def cdb0 : CDb := { cpi := some 0, maxTurn := 3, inTx := false }

/-- Serialization property claimed by the spec, stated over every
schedulable interleaving of two submissions for the same session: the two
requests never observe the same current_player_index nor the same latest
turn index. -/
def serializedNoSharedRead (n : Nat) (db : CDb) : Prop :=
  ∀ sched : List Bool,
    ¬ (((crun n sched db freshReq freshReq).2.1.readCpi ≠ none ∧
        (crun n sched db freshReq freshReq).2.1.readCpi =
          (crun n sched db freshReq freshReq).2.2.readCpi) ∨
       ((crun n sched db freshReq freshReq).2.1.readMax ≠ none ∧
        (crun n sched db freshReq freshReq).2.1.readMax =
          (crun n sched db freshReq freshReq).2.2.readMax))

/-! Concrete fixtures used to instantiate the theorems below. -/

/-- A turn-0 row as created at game start (action_taken null, acting
player null). -/
def turn0 : Turn :=
  { turnIndex := 0, scenarioText := "start", imageUrl := "img0", imagePrompt := "p0"
    suggestedActions := [], actionTaken := none, timeOfDay := "day"
    isSameLocation := true, characters := [], actingPlayerUserId := none
    actingPlayerIndex := none }

/-- A turn-1 row produced by an earlier action of player 0. -/
def turn1 : Turn :=
  { turn0 with turnIndex := 1, actionTaken := some "a1",
               actingPlayerUserId := some "u0", actingPlayerIndex := some 0 }

/-- Generator output reporting the given met-prerequisite list and goal
signal. -/
def mkTurnData (met : List String) (goalMet : Bool) : TurnData :=
  { narrative := "n", imagePrompt := "ip", suggestedActions := [], timeOfDay := "day"
    isSameLocation := false, characters := [], updatedMetPrerequisites := met
    isGoalMetThisTurn := goalMet }

/-- Single-player session fixture with one roster member u0 and the ledger
at turn 0. -/
def spState (met : List String) (prereqs : List String) (goalMet : Bool) : GameState :=
  { isMultiplayer := false, currentPlayerIndex := none, gameGoal := "G"
    goalPrerequisites := prereqs, metPrerequisites := met, isGoalMet := goalMet
    players := [⟨"u0", 0⟩], turns := [turn0], connectedUserIds := [] }

/-- Roster of four players with contiguous indices. -/
def mpPlayers : List Player := [⟨"u0", 0⟩, ⟨"u1", 1⟩, ⟨"u2", 2⟩, ⟨"u3", 3⟩]

/-- Multiplayer session fixture over mpPlayers with the ledger at turn 0. -/
def mpState (cpi : Option Nat) (connected : List String) : GameState :=
  { isMultiplayer := true, currentPlayerIndex := cpi, gameGoal := "G"
    goalPrerequisites := ["A"], metPrerequisites := [], isGoalMet := false
    players := mpPlayers, turns := [turn0], connectedUserIds := connected }

/-- Oracle whose generator succeeds on the first attempt and whose image
call succeeds. -/
def okOracle (d : TurnData) : Oracles :=
  { llmOutcomes := fun _ => some d, imageOutcome := .success "b" }

/-- Oracle whose generator fails on every attempt. -/
def failingLLMOracle : Oracles :=
  { llmOutcomes := fun _ => none, imageOutcome := .success "b" }

/-- Oracle whose generator succeeds but whose image call fails. -/
def failingImageOracle (d : TurnData) : Oracles :=
  { llmOutcomes := fun _ => some d, imageOutcome := .failure "boom" }

/-- Single-player session whose ledger is already at turn 1, used to
exercise a stale submission at fromTurnIndex 0. -/
def staleState : GameState := { spState [] ["A"] false with turns := [turn0, turn1] }

/-- Inversion of a successful (non-skip) handler run: every call that
responds with a new turn went through the single success branch of
processAction, so the resulting session row is exactly the one written by
the UPDATE at line 3821 and the ledger grew by exactly the inserted row. -/
theorem submitAction_newTurn_inv (p : String) (s : GameState) (req : ActionRequest)
    (o : Oracles) (s' : GameState) (d : TurnData) (u : String) (n : Int)
    (h : submitAction p s req o = (s', .newTurn d u n)) :
    s'.metPrerequisites = d.updatedMetPrerequisites ∧
    s'.isGoalMet = (d.isGoalMetThisTurn || s.isGoalMet) ∧
    s'.currentPlayerIndex = advanceCurrentPlayer s ∧
    s'.isMultiplayer = s.isMultiplayer ∧
    s'.players = s.players ∧
    n = req.turnIndex + 1 ∧
    ∃ rp, s.players.find? (fun q => q.userId = req.userId) = some rp ∧
      s'.turns = s.turns ++ [mkNewTurn req rp d u] := by
  unfold submitAction at h
  split at h
  · simp at h
  · split at h
    · simp at h
    · rename_i rp hfind
      split at h
      · simp at h
      · split at h
        · unfold processAction at h
          split at h
          · simp at h
          · split at h
            · simp at h
            · split at h
              · simp at h
              · rename_i d0 hllm
                split at h
                · simp at h
                · rename_i u0 himg
                  split at h
                  · simp at h
                  · simp only [Prod.mk.injEq, ActionResult.newTurn.injEq] at h
                    obtain ⟨hs, hd, hu, hn⟩ := h
                    subst hs; subst hd; subst hu
                    refine ⟨rfl, rfl, rfl, rfl, rfl, hn.symm, rp, hfind, rfl⟩
        · unfold skipTurn at h
          split at h
          · simp at h
          · simp at h

/-- C1 counterexample: the claim says the persisted met-set after a
successful action equals the union of the previously persisted met-set and
the generator report. Here the pre-turn met-set contains A, the generator
reports an empty list, the call persists a new turn, and the persisted
met-set afterwards no longer contains A: line 3830 stores the generator
list verbatim instead of a union. -/
theorem C1_counterexample :
    "A" ∈ (spState ["A"] ["A", "B"] false).metPrerequisites ∧
    (submitAction "google" (spState ["A"] ["A", "B"] false) ⟨"u0", "act", 0⟩
        (okOracle (mkTurnData [] false))).2 =
      .newTurn (mkTurnData [] false) "data:image/png;base64,b" 1 ∧
    "A" ∉ (submitAction "google" (spState ["A"] ["A", "B"] false) ⟨"u0", "act", 0⟩
        (okOracle (mkTurnData [] false))).1.metPrerequisites := by
  decide

/-- C1 amended: for every submitAction call that persists a new turn, the
persisted met-prerequisite set afterwards equals exactly the list the
generator reported in updated_met_prerequisites (a replacement, not a
union with the previous set); monotonicity of the met-set therefore relies
on the generator echoing previously met prerequisites, as its prompt
instructs, and is not enforced by the coordinator. -/
theorem C1_met_set_replaced (p : String) (s : GameState) (req : ActionRequest)
    (o : Oracles) (s' : GameState) (d : TurnData) (u : String) (n : Int)
    (h : submitAction p s req o = (s', .newTurn d u n)) :
    s'.metPrerequisites = d.updatedMetPrerequisites :=
  (submitAction_newTurn_inv p s req o s' d u n h).1

/-- C1 witness: the amended theorem applied to a concrete successful
call. -/
theorem C1_met_set_replaced_witness :
    (submitAction "google" (spState ["A"] ["A", "B"] false) ⟨"u0", "act", 0⟩
        (okOracle (mkTurnData [] false))).1.metPrerequisites =
      (mkTurnData [] false).updatedMetPrerequisites :=
  C1_met_set_replaced "google" (spState ["A"] ["A", "B"] false) ⟨"u0", "act", 0⟩
    (okOracle (mkTurnData [] false)) _ (mkTurnData [] false) "data:image/png;base64,b" 1
    (by decide)

/-- C3 counterexample: the claimed per-session serialization property fails
in the interleaving model of the handler: the schedule that lets both
requests perform their sessions read first makes both observe the same
current_player_index, because the source takes no per-session lock before
reading (the sessions read at line 3528 even precedes BEGIN). -/
theorem C3_counterexample : ¬ serializedNoSharedRead 4 cdb0 := by
  intro h
  exact h [true, false] (by decide)

/-- C3 amended: at most one submitAction per session at a time is NOT
enforced; in the interleaving model there is a schedule under which two
concurrent submissions for the same session both read the same
current_player_index before either starts its transaction. -/
theorem C3_no_per_session_serialization :
    ∃ sched : List Bool,
      (crun 4 sched cdb0 freshReq freshReq).2.1.readCpi = some (some 0) ∧
      (crun 4 sched cdb0 freshReq freshReq).2.2.readCpi = some (some 0) :=
  ⟨[true, false], by decide⟩

/-- C4 counterexample: the claim says the goal-satisfied flag is persisted
true only if the pre-turn met-set already contained every prerequisite.
Here the pre-turn met-set is empty and the sole prerequisite A is reported
as newly satisfied by the very action that also signals achievement, yet
the persisted flag becomes true: line 3819 computes the flag from the
generator signal alone, with no check against the pre-turn met-set. -/
theorem C4_counterexample :
    (spState [] ["A"] false).metPrerequisites = [] ∧
    (spState [] ["A"] false).goalPrerequisites = ["A"] ∧
    (spState [] ["A"] false).isGoalMet = false ∧
    (submitAction "google" (spState [] ["A"] false) ⟨"u0", "act", 0⟩
        (okOracle (mkTurnData ["A"] true))).2 =
      .newTurn (mkTurnData ["A"] true) "data:image/png;base64,b" 1 ∧
    (submitAction "google" (spState [] ["A"] false) ⟨"u0", "act", 0⟩
        (okOracle (mkTurnData ["A"] true))).1.isGoalMet = true := by
  decide

/-- C4 amended: the persisted goal-satisfied flag after a successful action
is exactly the disjunction of the generator achievement signal and the
previous flag; the requirement that all prerequisites were met before the
completing action lives only in the generator prompt (GM_BASE_PROMPT
lines 2673 and 2681) and is not enforced by the coordinator. -/
theorem C4_goal_flag_trusts_generator (p : String) (s : GameState)
    (req : ActionRequest) (o : Oracles) (s' : GameState) (d : TurnData)
    (u : String) (n : Int) (h : submitAction p s req o = (s', .newTurn d u n)) :
    s'.isGoalMet = (d.isGoalMetThisTurn || s.isGoalMet) :=
  (submitAction_newTurn_inv p s req o s' d u n h).2.1

/-- C4 witness: the amended theorem applied to a concrete successful
call. -/
theorem C4_goal_flag_trusts_generator_witness :
    (submitAction "google" (spState [] ["A"] false) ⟨"u0", "act", 0⟩
        (okOracle (mkTurnData ["A"] true))).1.isGoalMet =
      ((mkTurnData ["A"] true).isGoalMetThisTurn || (spState [] ["A"] false).isGoalMet) :=
  C4_goal_flag_trusts_generator "google" (spState [] ["A"] false) ⟨"u0", "act", 0⟩
    (okOracle (mkTurnData ["A"] true)) _ (mkTurnData ["A"] true)
    "data:image/png;base64,b" 1 (by decide)

/-- C5 counterexample: with roster u0..u3, only u1 and u3 connected and
current_player_index 0, a submitAction from player 1 does not advance
current_player_index to 1: the turn-ownership check at line 3561 runs
before the connectivity check, so the call is rejected with the
not-your-turn error and the state is unchanged. -/
theorem C5_counterexample :
    (mpState (some 0) ["u1", "u3"]).connectedUserIds.contains "u0" = false ∧
    submitAction "google" (mpState (some 0) ["u1", "u3"]) ⟨"u1", "act", 0⟩
        (okOracle (mkTurnData [] false)) =
      (mpState (some 0) ["u1", "u3"], .err .notYourTurn) := by
  decide

/-- C5 amended: the disconnect skip is triggered only by a submitAction
from the current player (index 0) themselves: that call advances
current_player_index to 1 - the nearest connected index strictly after 0 -
without inserting a turn, and afterwards an action from player 1 is
accepted and produces a new turn. -/
theorem C5_skip_requires_current_player_submit :
    submitAction "google" (mpState (some 0) ["u1", "u3"]) ⟨"u0", "act", 0⟩
        (okOracle (mkTurnData [] false)) =
      (mpState (some 1) ["u1", "u3"], .turnSkipped 1) ∧
    (submitAction "google" (mpState (some 1) ["u1", "u3"]) ⟨"u1", "act", 0⟩
        (okOracle (mkTurnData [] false))).2 =
      .newTurn (mkTurnData [] false) "data:image/png;base64,b" 1 := by
  decide

/-- Reduction of the handler to its action-processing branch once the
roster lookup, the turn-ownership check and the connectivity check have
passed. -/
theorem submitAction_eq_processAction (p : String) (s : GameState)
    (req : ActionRequest) (o : Oracles) (rp : Player)
    (hfind : s.players.find? (fun q => q.userId = req.userId) = some rp)
    (hown : ¬ (s.isMultiplayer ∧ ¬ s.currentPlayerIndex = some rp.playerIndex))
    (hconn : currentPlayerConnected s = true) :
    submitAction p s req o = processAction p s req rp o := by
  have hne : s.players.isEmpty = false := by
    cases hp : s.players with
    | nil => rw [hp] at hfind; simp at hfind
    | cons a l => simp [hp]
  unfold submitAction
  rw [hne, hfind]
  simp only [Bool.false_eq_true, if_false]
  rw [if_neg hown, if_pos hconn]

/-- Reduction of the handler to its skip-turn branch when the current
player is not connected. -/
theorem submitAction_eq_skipTurn (p : String) (s : GameState)
    (req : ActionRequest) (o : Oracles) (rp : Player)
    (hfind : s.players.find? (fun q => q.userId = req.userId) = some rp)
    (hown : ¬ (s.isMultiplayer ∧ ¬ s.currentPlayerIndex = some rp.playerIndex))
    (hconn : currentPlayerConnected s = false) :
    submitAction p s req o = skipTurn s := by
  have hne : s.players.isEmpty = false := by
    cases hp : s.players with
    | nil => rw [hp] at hfind; simp at hfind
    | cons a l => simp [hp]
  unfold submitAction
  rw [hne, hfind]
  simp only [Bool.false_eq_true, if_false]
  rw [if_neg hown, if_neg (by rw [hconn]; exact Bool.false_ne_true)]

/-- Error kinds the image dispatch can produce. -/
theorem genImage_error_kind (provider : String) (d : TurnData)
    (prev : Option String) (outcome : ImageOutcome) (e : ActionError)
    (h : generateImageWithAppropriateProvider provider d prev outcome = .error e) :
    (∃ m, e = .imageFailed m) ∨ e = .invalidImageProvider := by
  unfold generateImageWithAppropriateProvider at h
  split at h
  · simp at h
  · split at h <;> simp at h
  · unfold generateImageWithOpenAI at h
    split at h
    · simp at h
    · simp only [Except.error.injEq] at h
      exact Or.inl ⟨_, h.symm⟩
  · simp only [Except.error.injEq] at h
    exact Or.inr h.symm

/-- The action-processing branch never produces the not-your-turn error. -/
theorem processAction_ne_notYourTurn (p : String) (s : GameState)
    (req : ActionRequest) (rp : Player) (o : Oracles) :
    (processAction p s req rp o).2 ≠ .err .notYourTurn := by
  unfold processAction
  split
  · simp
  · split
    · simp
    · split
      · simp
      · split
        · rename_i e himg
          rcases genImage_error_kind _ _ _ _ _ himg with ⟨m, hm⟩ | hm <;> simp [hm]
        · split <;> simp

/-- The skip-turn branch never produces the not-your-turn error. -/
theorem skipTurn_ne_notYourTurn (s : GameState) :
    (skipTurn s).2 ≠ .err .notYourTurn := by
  unfold skipTurn
  split <;> simp

/-- Attempt count of the retry loop never exceeds the remaining iteration
budget. -/
theorem llmAttempts_count_le (oc : Nat → Option TurnData) (m : Nat) :
    ∀ r a, (llmAttempts oc m a r).2.2 ≤ r := by
  intro r
  induction r with
  | zero => intro a; simp [llmAttempts]
  | succ k ih =>
    intro a
    unfold llmAttempts
    cases oc a with
    | some d => simp
    | none =>
      simp only
      split
      · exact Nat.succ_le_succ (ih (a + 1))
      · exact Nat.succ_le_succ (Nat.zero_le k)

/-- C2: a submitAction whose fromTurnIndex is non-negative but strictly
below the latest persisted turn index fails, and the state (in particular
the turn ledger) is left exactly as it was, so no duplicate turn appears at
fromTurnIndex + 1. The early validation at line 3609 only rejects indices
outside 0..latest and the branching check at line 3749 has an empty body,
so the rejection is realized by the UNIQUE(session_id, turn_index)
constraint failing at the insert and the transaction rolling back; the
hypothesis that a turn already exists at fromTurnIndex + 1 is the gapless
ledger invariant instantiated there, which holds whenever fromTurnIndex is
stale. The hypotheses on the roster lookup, ownership and connectivity
restrict the statement to calls that reach action processing at all. -/
theorem C2_stale_submission_fails (p : String) (s : GameState)
    (req : ActionRequest) (o : Oracles) (rp : Player)
    (hfind : s.players.find? (fun q => q.userId = req.userId) = some rp)
    (hown : ¬ (s.isMultiplayer ∧ ¬ s.currentPlayerIndex = some rp.playerIndex))
    (hconn : currentPlayerConnected s = true)
    (h0 : 0 ≤ req.turnIndex)
    (hstale : req.turnIndex < latestTurnIndex s.turns)
    (hconf : s.turns.any (fun t => t.turnIndex = req.turnIndex + 1) = true) :
    (submitAction p s req o).1 = s ∧ (submitAction p s req o).2.isErr = true := by
  rw [submitAction_eq_processAction p s req o rp hfind hown hconn]
  have hrange : ¬ (req.turnIndex < 0 ∨ req.turnIndex > latestTurnIndex s.turns) := by
    omega
  unfold processAction
  rw [if_neg hrange]
  split
  · exact ⟨rfl, rfl⟩
  · split
    · exact ⟨rfl, rfl⟩
    · split
      · exact ⟨rfl, rfl⟩
      · exact ⟨rfl, rfl⟩

/-- C2 witness: the theorem applied to a single-player session at turn 1
receiving a second submission against turn 0. -/
theorem C2_stale_submission_fails_witness :
    (submitAction "google" staleState ⟨"u0", "act", 0⟩
        (okOracle (mkTurnData [] false))).1 = staleState ∧
    (submitAction "google" staleState ⟨"u0", "act", 0⟩
        (okOracle (mkTurnData [] false))).2.isErr = true :=
  C2_stale_submission_fails "google" staleState ⟨"u0", "act", 0⟩
    (okOracle (mkTurnData [] false)) ⟨"u0", 0⟩ (by decide) (by decide) (by decide)
    (by decide) (by decide) (by decide)

/-- C6: every handler run that responds with a new turn advances
current_player_index to (i + 1) mod N for a multiplayer session with N
roster players and current index i - the computation at line 3815 uses
only the roster length, never connectivity - and leaves
current_player_index untouched (null stays null) for a single-player
session. -/
theorem C6_round_robin_advance (p : String) (s : GameState)
    (req : ActionRequest) (o : Oracles) (s' : GameState) (d : TurnData)
    (u : String) (n : Int) (h : submitAction p s req o = (s', .newTurn d u n)) :
    (s.isMultiplayer = true → ∀ i, s.currentPlayerIndex = some i →
      s'.currentPlayerIndex = some ((i + 1) % s.players.length)) ∧
    (s.isMultiplayer = false → s'.currentPlayerIndex = s.currentPlayerIndex) := by
  have hcpi := (submitAction_newTurn_inv p s req o s' d u n h).2.2.1
  unfold advanceCurrentPlayer at hcpi
  constructor
  · intro hm i hi
    rw [hm] at hcpi
    rw [hi] at hcpi
    simpa using hcpi
  · intro hm
    rw [hm] at hcpi
    simpa using hcpi

/-- C6 witness: the theorem applied to a concrete 4-player session with
current index 1; the player at the advanced index 2 is not connected, yet
the index still advances to 2. -/
theorem C6_round_robin_advance_witness :
    (submitAction "google" (mpState (some 1) ["u1"]) ⟨"u1", "act", 0⟩
        (okOracle (mkTurnData [] false))).1.currentPlayerIndex =
      some ((1 + 1) % (mpState (some 1) ["u1"]).players.length) :=
  (C6_round_robin_advance "google" (mpState (some 1) ["u1"]) ⟨"u1", "act", 0⟩
      (okOracle (mkTurnData [] false)) _ (mkTurnData [] false)
      "data:image/png;base64,b" 1 (by decide)).1 rfl 1 rfl

/-- C7: on the skip path (multiplayer, ownership check passed, current
player not connected) the handler either finds a connected player within
one wrap of the roster and persists only the index change - the ledger,
met-set and goal flag are untouched and the response is the turn-skipped
indicator - or finds none, in which case the whole state is unchanged and
the no-active-players condition is reported; and because the state is
unchanged, a repeated attempt reports it again. -/
theorem C7_skip_branch (p : String) (s : GameState) (req : ActionRequest)
    (o : Oracles) (rp : Player)
    (hfind : s.players.find? (fun q => q.userId = req.userId) = some rp)
    (hown : ¬ (s.isMultiplayer ∧ ¬ s.currentPlayerIndex = some rp.playerIndex))
    (hconn : currentPlayerConnected s = false) :
    (∀ idx, findNextConnectedIndex s.players s.connectedUserIds
        (s.currentPlayerIndex.getD 0) = some idx →
      submitAction p s req o =
        ({ s with currentPlayerIndex := some idx }, .turnSkipped idx) ∧
      (submitAction p s req o).1.turns = s.turns) ∧
    (findNextConnectedIndex s.players s.connectedUserIds
        (s.currentPlayerIndex.getD 0) = none →
      submitAction p s req o = (s, .err .noActivePlayers) ∧
      submitAction p (submitAction p s req o).1 req o = (s, .err .noActivePlayers)) := by
  rw [submitAction_eq_skipTurn p s req o rp hfind hown hconn]
  constructor
  · intro idx hidx
    unfold skipTurn
    rw [hidx]
    exact ⟨rfl, rfl⟩
  · intro hnone
    have hskip : skipTurn s = (s, .err .noActivePlayers) := by
      unfold skipTurn
      rw [hnone]
    refine ⟨hskip, ?_⟩
    rw [hskip]
    rw [submitAction_eq_skipTurn p s req o rp hfind hown hconn]
    exact hskip

/-- C7 witness: the theorem applied to a 4-player session with current
player 0 disconnected and only u1 connected: the index skips to 1 with the
ledger untouched. -/
theorem C7_skip_branch_witness :
    submitAction "google" (mpState (some 0) ["u1"]) ⟨"u0", "act", 0⟩
        (okOracle (mkTurnData [] false)) =
      ({ mpState (some 0) ["u1"] with currentPlayerIndex := some 1 }, .turnSkipped 1) ∧
    (submitAction "google" (mpState (some 0) ["u1"]) ⟨"u0", "act", 0⟩
        (okOracle (mkTurnData [] false))).1.turns = (mpState (some 0) ["u1"]).turns :=
  (C7_skip_branch "google" (mpState (some 0) ["u1"]) ⟨"u0", "act", 0⟩
      (okOracle (mkTurnData [] false)) ⟨"u0", 0⟩ (by decide) (by decide)
      (by decide)).1 1 (by decide)

/-- C8: the narrative-generation call is attempted at most 3 times (the
attempt count of callLLM never exceeds its budget of 3), the backoff before
each retry is 500ms times the attempt number (here the full failing run
performs exactly the delays 500 and 1000 and makes exactly 3 attempts), the
loop retries on any attempt failure (network error, empty content, parse
failure or missing/invalid fields are all caught by the same handler at
line 2938), and when all 3 attempts fail the handler responds with the
terminal LLM error while the state - ledger, current_player_index, met-set
and goal flag - is exactly its pre-attempt value, since the transaction is
rolled back at line 3858 before any write happened. -/
theorem C8_llm_retry_policy (p : String) (s : GameState) (req : ActionRequest)
    (o : Oracles) (rp : Player)
    (hfind : s.players.find? (fun q => q.userId = req.userId) = some rp)
    (hown : ¬ (s.isMultiplayer ∧ ¬ s.currentPlayerIndex = some rp.playerIndex))
    (hconn : currentPlayerConnected s = true)
    (hrange : ¬ (req.turnIndex < 0 ∨ req.turnIndex > latestTurnIndex s.turns))
    (hhist : (s.turns.filter (fun t => t.turnIndex ≤ req.turnIndex)).isEmpty = false)
    (h1 : o.llmOutcomes 1 = none) (h2 : o.llmOutcomes 2 = none)
    (h3 : o.llmOutcomes 3 = none) :
    callLLM o.llmOutcomes 3 = (.error "LLM failed after retries", [500 * 1, 500 * 2], 3) ∧
    (∀ oc : Nat → Option TurnData, (callLLM oc 3).2.2 ≤ 3) ∧
    submitAction p s req o = (s, .err .llmFailed) := by
  have hllm : callLLM o.llmOutcomes 3 =
      (.error "LLM failed after retries", [500 * 1, 500 * 2], 3) := by
    unfold callLLM
    unfold llmAttempts
    rw [h1]
    simp only [Nat.lt_irrefl, reduceIte, Nat.one_lt_ofNat, if_true]
    unfold llmAttempts
    rw [h2]
    simp only [Nat.lt_irrefl, reduceIte, Nat.reduceLT, if_true]
    unfold llmAttempts
    rw [h3]
    simp
  refine ⟨hllm, fun oc => llmAttempts_count_le oc 3 3 1, ?_⟩
  rw [submitAction_eq_processAction p s req o rp hfind hown hconn]
  unfold processAction
  rw [if_neg hrange, hhist]
  simp only [Bool.false_eq_true, if_false]
  rw [hllm]

/-- C8 witness: the theorem applied to a single-player session whose
generator fails every attempt. -/
theorem C8_llm_retry_policy_witness :
    callLLM failingLLMOracle.llmOutcomes 3 =
      (.error "LLM failed after retries", [500 * 1, 500 * 2], 3) ∧
    (∀ oc : Nat → Option TurnData, (callLLM oc 3).2.2 ≤ 3) ∧
    submitAction "google" (spState [] ["A"] false) ⟨"u0", "act", 0⟩ failingLLMOracle =
      (spState [] ["A"] false, .err .llmFailed) :=
  C8_llm_retry_policy "google" (spState [] ["A"] false) ⟨"u0", "act", 0⟩
    failingLLMOracle ⟨"u0", 0⟩ (by decide) (by decide) (by decide) (by decide)
    (by decide) rfl rfl rfl

/-- C9: for a multiplayer session, a submitAction from a roster member
whose index differs from current_player_index is rejected with the
not-your-turn permission error and the state is returned unchanged - the
check at line 3561 runs before BEGIN, so nothing is written - while a
single-player session never produces this rejection (the check is inside
the is_multiplayer guard). -/
theorem C9_turn_ownership (p : String) (s : GameState) (req : ActionRequest)
    (o : Oracles) (rp : Player)
    (hfind : s.players.find? (fun q => q.userId = req.userId) = some rp) :
    (s.isMultiplayer = true → ¬ s.currentPlayerIndex = some rp.playerIndex →
      submitAction p s req o = (s, .err .notYourTurn)) ∧
    (s.isMultiplayer = false → (submitAction p s req o).2 ≠ .err .notYourTurn) := by
  have hne : s.players.isEmpty = false := by
    cases hp : s.players with
    | nil => rw [hp] at hfind; simp at hfind
    | cons a l => simp [hp]
  constructor
  · intro hm hidx
    unfold submitAction
    rw [hne, hfind]
    simp only [Bool.false_eq_true, if_false]
    rw [if_pos ⟨hm, hidx⟩]
  · intro hm
    have hown : ¬ (s.isMultiplayer ∧ ¬ s.currentPlayerIndex = some rp.playerIndex) := by
      intro hc
      rw [hm] at hc
      exact Bool.false_ne_true hc.1
    cases hc : currentPlayerConnected s with
    | true =>
      rw [submitAction_eq_processAction p s req o rp hfind hown hc]
      exact processAction_ne_notYourTurn p s req rp o
    | false =>
      rw [submitAction_eq_skipTurn p s req o rp hfind hown hc]
      exact skipTurn_ne_notYourTurn s

/-- C9 witness: the theorem applied to a 4-player session with current
index 0 receiving an action from the player at index 1. -/
theorem C9_turn_ownership_witness :
    submitAction "google" (mpState (some 0) ["u0", "u1"]) ⟨"u1", "act", 0⟩
        (okOracle (mkTurnData [] false)) =
      (mpState (some 0) ["u0", "u1"], .err .notYourTurn) :=
  (C9_turn_ownership "google" (mpState (some 0) ["u0", "u1"]) ⟨"u1", "act", 0⟩
      (okOracle (mkTurnData [] false)) ⟨"u1", 1⟩ (by decide)).1 rfl (by decide)

/-- C10 counterexample: the claim says an image-generation failure never
fails the operation under every configured image provider. Under the
openai provider (a legal ACTIVE_IMAGE_PROVIDER value, line 3982),
generateImageWithOpenAI has no catch, so the failure propagates, the
transaction rolls back, no turn is persisted and the call fails - even
though the generator succeeded. -/
theorem C10_counterexample :
    (callLLM (failingImageOracle (mkTurnData [] false)).llmOutcomes 3).1 =
      .ok (mkTurnData [] false) ∧
    submitAction "openai" (spState [] ["A"] false) ⟨"u0", "act", 0⟩
        (failingImageOracle (mkTurnData [] false)) =
      (spState [] ["A"] false, .err (.imageFailed "boom")) := by
  exact ⟨rfl, by decide⟩

/-- C10 amended: image failures are fully absorbed under the google and
google-flash providers - the dispatch always returns a url there, a failed
call degrading to the placeholder - and a concrete failing-image call under
the google provider still persists the turn, with the placeholder stored as
its image; under the openai provider, however, the failure propagates as an
error and fails the submitAction. -/
theorem C10_image_failure_absorbed_unless_openai :
    (∀ (d : TurnData) (prev : Option String) (outcome : ImageOutcome),
      ∃ u, generateImageWithAppropriateProvider "google" d prev outcome = .ok u) ∧
    (∀ (d : TurnData) (prev : Option String) (outcome : ImageOutcome),
      ∃ u, generateImageWithAppropriateProvider "google-flash" d prev outcome = .ok u) ∧
    (∀ (d : TurnData) (prev : Option String) (m : String),
      generateImageWithAppropriateProvider "openai" d prev (.failure m) =
        .error (.imageFailed m)) ∧
    (submitAction "google" (spState [] ["A"] false) ⟨"u0", "act", 0⟩
        (failingImageOracle (mkTurnData [] false))).2 =
      .newTurn (mkTurnData [] false) imagenFailedUrl 1 ∧
    (submitAction "google" (spState [] ["A"] false) ⟨"u0", "act", 0⟩
        (failingImageOracle (mkTurnData [] false))).1.turns =
      (spState [] ["A"] false).turns ++
        [mkNewTurn ⟨"u0", "act", 0⟩ ⟨"u0", 0⟩ (mkTurnData [] false) imagenFailedUrl] := by
  refine ⟨?_, ?_, ?_, by decide, by decide⟩
  · intro d prev outcome
    exact ⟨generateImageWithImagen d.imagePrompt outcome, rfl⟩
  · intro d prev outcome
    by_cases hc : d.isSameLocation = true ∧ prev.isSome = true
    · exact ⟨generateImageWithGoogleFlash d.imagePrompt prev outcome, if_pos hc⟩
    · exact ⟨generateImageWithGoogleFlash d.imagePrompt none outcome, if_neg hc⟩
  · intro d prev m
    rfl

end Evertale
